import Mathlib

/-!
Verification of the MySQL chatbot pipeline (src/src/chatbot.py).

The program wires a two-stage LangChain pipeline: a SQL-generation chain
(schema fetch → prompt → LLM → StrOutputParser) nested inside a response
chain (generate query → schema fetch + query execution → prompt → LLM →
StrOutputParser), with a try/except turn boundary in `get_response`, plus
the Gradio-facing helpers `connect_to_db` and `chat_interface_predict`.

External collaborators (the database handle and the language-model
completion endpoint) are modelled as a record of fallible functions
(`Collab`); every external call the pipeline makes is recorded as an
`Event`, so call counts and call order are provable.  Failure of a
collaborator is an `Except.error`, mirroring a raised Python exception.
-/

namespace MySQLChatbot

/-- A LangChain chat message, as built by `chat_interface_predict`
(HumanMessage / AIMessage with a text content). -/
inductive LCMessage where
  | human : String → LCMessage
  | ai : String → LCMessage
deriving DecidableEq

/-- External collaborators of one turn: the database handle
(`get_table_info`, `run`) and the language-model completion endpoint
(`complete`, i.e. the ChatOpenAI call followed by StrOutputParser, which
returns the message content unchanged).  An `Except.error e` models the
collaborator raising an exception with text `e`.  A `Collab` value is
fixed for the duration of a turn (the database is unchanged within a
turn), so the two `get_table_info` calls the code makes see the same
handle. -/
structure Collab where
  get_table_info : Except String String
  run : String → Except String String
  complete : String → Except String String

/-- One observable external call made by the pipeline. -/
inductive Event where
  | schemaFetch : Event
  | llmCall : String → Event
  | dbRun : String → Event
deriving DecidableEq

/-- Python str() of one LangChain message as interpolated into the
prompt templates (the exact textual rendering is opaque to every claim;
what matters is that it is a fixed function of the message). -/
def strMessage : LCMessage → String
  | LCMessage.human c => "HumanMessage(content=\u0027" ++ c ++ "\u0027)"
  | LCMessage.ai c => "AIMessage(content=\u0027" ++ c ++ "\u0027)"

/-- Python str() of the `chat_history` list as interpolated into the
prompt templates by ChatPromptTemplate formatting. -/
def strHistory (hist : List LCMessage) : String :=
  "[" ++ String.intercalate ", " (hist.map strMessage) ++ "]"

/-- SQL_GENERATION_PROMPT after ChatPromptTemplate substitutes
`schema`, `chat_history` and `question` (the template string of the
source, with the three placeholders filled in). -/
def renderSqlGenerationPrompt (schema chat_history question : String) : String :=
  "\nYou are a data analyst at a company. You are interacting with a user who is asking you questions about the company\u0027s database.\nBased on the table schema below, write a SQL query that would answer the user\u0027s question. Take the conversation history into account.\n\n<SCHEMA>" ++ schema ++ "</SCHEMA>\n\nConversation History: " ++ chat_history ++ "\n\nWrite only the SQL query and nothing else. Do not wrap the SQL query in any other text, not even backticks.\n\nExample:\nQuestion: which 3 artists have the most tracks?\nSQL Query: SELECT ArtistId, COUNT(*) as track_count FROM Track GROUP BY ArtistId ORDER BY track_count DESC LIMIT 3;\nQuestion: Name 10 artists\nSQL Query: SELECT Name FROM Artist LIMIT 10;\n\nYour turn:\n\nQuestion: " ++ question ++ "\nSQL Query:\n"

/-- NL_RESPONSE_PROMPT after ChatPromptTemplate substitutes `schema`,
`chat_history`, `query`, `question` and `response`. -/
def renderNlResponsePrompt (schema chat_history query question response : String) : String :=
  "\nYou are a data analyst at a company. You are interacting with a user who is asking you questions about the company\u0027s database.\nBased on the table schema below, question, sql query, and sql response, write a natural language response.\n\n<SCHEMA>" ++ schema ++ "</SCHEMA>\nConversation History: " ++ chat_history ++ "\nSQL Query: <SQL>" ++ query ++ "</SQL>\nUser question: " ++ question ++ "\nSQL Response: " ++ response ++ "\n"

/-- Invoking the chain built by `get_sql_chain(db)` on
{question, chat_history}:
`RunnablePassthrough.assign(schema=lambda _: db.get_table_info()) | prompt | llm | StrOutputParser()`.
The schema is fetched, the generation prompt rendered, the LLM called;
StrOutputParser returns the completion text unchanged (no trimming of
any kind is applied to the completion).  Returns the chain result (or
the exception text) together with the list of external calls made. -/
def get_sql_chain_invoke (env : Collab) (question chat_history : String) :
    Except String String × List Event :=
  match env.get_table_info with
  | Except.error e => (Except.error e, [Event.schemaFetch])
  | Except.ok schema =>
      match env.complete (renderSqlGenerationPrompt schema chat_history question) with
      | Except.error e =>
          (Except.error e,
            [Event.schemaFetch, Event.llmCall (renderSqlGenerationPrompt schema chat_history question)])
      | Except.ok text =>
          (Except.ok text,
            [Event.schemaFetch, Event.llmCall (renderSqlGenerationPrompt schema chat_history question)])

/-- Invoking the full chain built inside `get_response` on
{question, chat_history}:
`RunnablePassthrough.assign(query=sql_chain).assign(schema=lambda _: db.get_table_info(), response=lambda vars: db.run(vars["query"])) | prompt | llm | StrOutputParser()`.
Note the second `get_table_info` call made by the outer assign, and that
`db.run` receives `vars["query"]` — the generated string — verbatim.
The first collaborator to fail aborts the chain with its exception. -/
def chain_invoke (env : Collab) (question chat_history : String) :
    Except String String × List Event :=
  match get_sql_chain_invoke env question chat_history with
  | (Except.error e, tr) => (Except.error e, tr)
  | (Except.ok query, tr) =>
      match env.get_table_info with
      | Except.error e => (Except.error e, tr ++ [Event.schemaFetch])
      | Except.ok schema =>
          match env.run query with
          | Except.error e => (Except.error e, tr ++ [Event.schemaFetch, Event.dbRun query])
          | Except.ok response =>
              match env.complete (renderNlResponsePrompt schema chat_history query question response) with
              | Except.error e =>
                  (Except.error e,
                    tr ++ [Event.schemaFetch, Event.dbRun query,
                      Event.llmCall (renderNlResponsePrompt schema chat_history query question response)])
              | Except.ok result =>
                  (Except.ok result,
                    tr ++ [Event.schemaFetch, Event.dbRun query,
                      Event.llmCall (renderNlResponsePrompt schema chat_history query question response)])

/-- The error-message marker of the `except` branch of `get_response`. -/
def errorMarker : String := "⚠️ Error processing query: "

/-- `get_response(user_query, db, chat_history)`: invokes the chain
inside `try`; on success returns the chain result, on any exception
returns the single marker-prefixed error message.  Total: no exception
escapes the turn, and the turn is never re-run. -/
def get_response (env : Collab) (user_query : String) (chat_history : List LCMessage) :
    String × List Event :=
  match chain_invoke env user_query (strHistory chat_history) with
  | (Except.ok result, tr) => (result, tr)
  | (Except.error e, tr) => (errorMarker ++ e, tr)

/-- Python truthiness of an optional Gradio history cell
(`if human_msg:`): None and the empty string are falsy. -/
def truthy : Option String → Bool
  | none => false
  | some s => !s.isEmpty

/-- `chat_interface_predict(message, history, db)`: with no connection it
returns the fixed warning and makes no external call (empty trace);
otherwise it converts the Gradio history to LangChain messages, appends
the current message, and delegates to `get_response`. -/
def chat_interface_predict (message : String)
    (history : List (Option String × Option String)) (db : Option Collab) :
    String × List Event :=
  match db with
  | none => ("⚠️ Please connect to the database first.", [])
  | some env =>
      let langchain_chat_history := history.foldl
        (fun acc p =>
          let acc1 := if truthy p.1 then acc ++ [LCMessage.human (p.1.getD "")] else acc
          if truthy p.2 then acc1 ++ [LCMessage.ai (p.2.getD "")] else acc1) []
      get_response env message (langchain_chat_history ++ [LCMessage.human message])

/-- The connection URI built by `init_database`. -/
def db_uri (user password host port database : String) : String :=
  "mysql+mysqlconnector://" ++ user ++ ":" ++ password ++ "@" ++ host ++ ":" ++ port ++ "/" ++ database

/-- `init_database(user, password, host, port, database)`: builds the URI
and calls the external driver (`SQLDatabase.from_uri`), which may raise;
the driver is passed in as a fallible function. -/
def init_database (driver : String → Except String Collab)
    (user password host port database : String) : Except String Collab :=
  driver (db_uri user password host port database)

/-- `connect_to_db(host, port, user, password, database)`: on success
returns the success banner and the new handle; on exception returns the
failure text and None. -/
def connect_to_db (driver : String → Except String Collab)
    (host port user password database : String) : String × Option Collab :=
  match init_database driver user password host port database with
  | Except.ok db => ("✅ Connected to database!", some db)
  | Except.error e => ("❌ Failed to connect: " ++ e, none)

/-- The connect button wires `outputs=[connection_status, db_state]`:
whatever connection was stored before, `db_state` is overwritten with the
second component of `connect_to_db`'s return value. -/
def db_state_update (_prev : Option Collab) (result : String × Option Collab) :
    Option Collab :=
  result.2

/-- Is the event a language-model call? -/
def isLlmCall : Event → Bool
  | Event.schemaFetch => false
  | Event.llmCall _ => true
  | Event.dbRun _ => false

/-- Is the event a query execution? -/
def isDbRun : Event → Bool
  | Event.schemaFetch => false
  | Event.llmCall _ => false
  | Event.dbRun _ => true

/-- Is the event a schema fetch? -/
def isSchemaFetch : Event → Bool
  | Event.schemaFetch => true
  | Event.llmCall _ => false
  | Event.dbRun _ => false

/-- Number of `llmCall` events in a trace. -/
def llmCount (tr : List Event) : Nat := tr.countP isLlmCall

/-- Number of `dbRun` events in a trace. -/
def runCount (tr : List Event) : Nat := tr.countP isDbRun

/-- Number of `schemaFetch` events in a trace. -/
def schemaCount (tr : List Event) : Nat := tr.countP isSchemaFetch

/-- Total database round trips in a trace (schema fetches plus query
executions). -/
def dbCount (tr : List Event) : Nat := schemaCount tr + runCount tr

/-! ## Helper lemmas -/

/-- A successful run of the SQL-generation chain has the shape: schema
fetched, one LLM call on the rendered generation prompt, and the result
is the completion text unchanged. -/
lemma sql_ok_shape (env : Collab) (q ch query : String) (tr : List Event)
    (h : get_sql_chain_invoke env q ch = (Except.ok query, tr)) :
    ∃ schema, env.get_table_info = Except.ok schema ∧
      env.complete (renderSqlGenerationPrompt schema ch q) = Except.ok query ∧
      tr = [Event.schemaFetch, Event.llmCall (renderSqlGenerationPrompt schema ch q)] := by
  unfold get_sql_chain_invoke at h
  split at h
  · simp at h
  next schema hg =>
    split at h
    · simp at h
    next text hc =>
      obtain ⟨h1, h2⟩ := Prod.mk.injEq _ _ _ _ |>.mp h
      obtain rfl : text = query := by simpa using h1
      exact ⟨schema, hg, hc, h2.symm⟩

/-- A successful run of the full response chain has the shape: schema
fetch, generation LLM call, second schema fetch, one execution of the
generated query, synthesis LLM call, in that order; the result is the
synthesis completion. -/
lemma chain_ok_shape (env : Collab) (q ch r : String) (tr : List Event)
    (h : chain_invoke env q ch = (Except.ok r, tr)) :
    ∃ schema query resp,
      env.get_table_info = Except.ok schema ∧
      env.complete (renderSqlGenerationPrompt schema ch q) = Except.ok query ∧
      env.run query = Except.ok resp ∧
      env.complete (renderNlResponsePrompt schema ch query q resp) = Except.ok r ∧
      tr = [Event.schemaFetch, Event.llmCall (renderSqlGenerationPrompt schema ch q),
            Event.schemaFetch, Event.dbRun query,
            Event.llmCall (renderNlResponsePrompt schema ch query q resp)] := by
  unfold chain_invoke at h
  split at h
  · simp at h
  next query tr0 hsql =>
    obtain ⟨schema, hg, hc, htr0⟩ := sql_ok_shape env q ch query tr0 hsql
    split at h
    next e hg2 => rw [hg] at hg2; simp at hg2
    next schema2 hg2 =>
      rw [hg] at hg2
      obtain rfl : schema = schema2 := by simpa using hg2
      split at h
      · simp at h
      next resp hrun =>
        split at h
        · simp at h
        next result hc2 =>
          obtain ⟨h1, h2⟩ := Prod.mk.injEq _ _ _ _ |>.mp h
          obtain rfl : result = r := by simpa using h1
          subst htr0
          exact ⟨schema, query, resp, hg, hc, hrun, hc2, h2.symm⟩

/-- If the execution of the generated query fails, the chain aborts with
that error right after the run event: the synthesis prompt is never
rendered and no further LLM call happens. -/
lemma chain_run_error (env : Collab) (q ch query e : String) (tr : List Event)
    (hsql : get_sql_chain_invoke env q ch = (Except.ok query, tr))
    (hrun : env.run query = Except.error e) :
    chain_invoke env q ch = (Except.error e, tr ++ [Event.schemaFetch, Event.dbRun query]) := by
  obtain ⟨schema, hg, _, _⟩ := sql_ok_shape env q ch query tr hsql
  unfold chain_invoke
  rw [hsql]
  simp [hg, hrun]

@[simp] lemma llmCount_nil : llmCount [] = 0 := rfl

@[simp] lemma runCount_nil : runCount [] = 0 := rfl

@[simp] lemma schemaCount_nil : schemaCount [] = 0 := rfl

@[simp] lemma llmCount_append (a b : List Event) :
    llmCount (a ++ b) = llmCount a + llmCount b := by
  simp [llmCount, List.countP_append]

@[simp] lemma runCount_append (a b : List Event) :
    runCount (a ++ b) = runCount a + runCount b := by
  simp [runCount, List.countP_append]

@[simp] lemma schemaCount_append (a b : List Event) :
    schemaCount (a ++ b) = schemaCount a + schemaCount b := by
  simp [schemaCount, List.countP_append]

@[simp] lemma llmCount_cons (x : Event) (tr : List Event) :
    llmCount (x :: tr) = llmCount tr + (if isLlmCall x then 1 else 0) := by
  simp [llmCount, List.countP_cons]

@[simp] lemma runCount_cons (x : Event) (tr : List Event) :
    runCount (x :: tr) = runCount tr + (if isDbRun x then 1 else 0) := by
  simp [runCount, List.countP_cons]

@[simp] lemma schemaCount_cons (x : Event) (tr : List Event) :
    schemaCount (x :: tr) = schemaCount tr + (if isSchemaFetch x then 1 else 0) := by
  simp [schemaCount, List.countP_cons]

/-- Bounds on the trace of the SQL-generation chain, on every path. -/
lemma sql_trace_bounds (env : Collab) (q ch : String)
    (res : Except String String) (tr : List Event)
    (h : get_sql_chain_invoke env q ch = (res, tr)) :
    runCount tr = 0 ∧ llmCount tr ≤ 1 ∧ schemaCount tr = 1 := by
  unfold get_sql_chain_invoke at h
  split at h
  · obtain ⟨h1, h2⟩ := Prod.mk.injEq _ _ _ _ |>.mp h
    subst h2
    simp [isLlmCall, isDbRun, isSchemaFetch]
  · split at h <;>
    · obtain ⟨h1, h2⟩ := Prod.mk.injEq _ _ _ _ |>.mp h
      subst h2
      simp [isLlmCall, isDbRun, isSchemaFetch]

/-- Bounds on the trace of the full response chain, on every path: at
most one query execution, at most two LLM calls, at most two schema
fetches. -/
lemma chain_trace_bounds (env : Collab) (q ch : String) :
    runCount (chain_invoke env q ch).2 ≤ 1 ∧
    llmCount (chain_invoke env q ch).2 ≤ 2 ∧
    schemaCount (chain_invoke env q ch).2 ≤ 2 := by
  unfold chain_invoke
  split
  next e tr hsql =>
    obtain ⟨h1, h2, h3⟩ := sql_trace_bounds env q ch _ _ hsql
    dsimp only
    exact ⟨by omega, by omega, by omega⟩
  next query tr hsql =>
    obtain ⟨h1, h2, h3⟩ := sql_trace_bounds env q ch _ _ hsql
    split
    · dsimp only
      simp [isLlmCall, isDbRun, isSchemaFetch]
      refine ⟨by omega, by omega, by omega⟩
    · split
      · dsimp only
        simp [isLlmCall, isDbRun, isSchemaFetch]
        refine ⟨by omega, by omega, by omega⟩
      · split <;>
        · dsimp only
          simp [isLlmCall, isDbRun, isSchemaFetch]
          refine ⟨by omega, by omega, by omega⟩

/-- The backtick character (written by code point to keep it out of the
source text). -/
def backtickChar : Char := Char.ofNat 96

/-- Does the text begin with a three-backtick code fence — the kind of
extraneous wrapping the spec says is trimmed off? -/
def beginsWithBacktickFence (s : String) : Bool :=
  s.data.take 3 == [backtickChar, backtickChar, backtickChar]

/-! ## Stub collaborators used as concrete instances -/

/-- A stub whose completion endpoint times out. -/
def timeoutEnv : Collab :=
  { get_table_info := Except.ok "CREATE TABLE Artist (ArtistId INT, Name TEXT)"
    run := fun _ => Except.ok "[(275,)]"
    complete := fun _ => Except.error "Request timed out" }

/-- A stub whose query execution fails on the (malformed) generated SQL. -/
def runFailEnv : Collab :=
  { get_table_info := Except.ok "CREATE TABLE Artist (ArtistId INT, Name TEXT)"
    run := fun _ => Except.error "1064: SQL syntax error"
    complete := fun _ => Except.ok "SELEC COUNT(*) FROM Artist;" }

/-- A deterministic stub whose completion text is wrapped in backticks. -/
def backtickEnv : Collab :=
  { get_table_info := Except.ok "CREATE TABLE Artist (ArtistId INT, Name TEXT)"
    run := fun _ => Except.ok "[(275,)]"
    complete := fun _ => Except.ok "```sql\nSELECT COUNT(*) FROM Artist;\n```" }

/-- A deterministic stub for a fully successful turn. -/
def okEnv : Collab :=
  { get_table_info := Except.ok "CREATE TABLE Artist (ArtistId INT, Name TEXT)"
    run := fun _ => Except.ok "[(275,)]"
    complete := fun _ => Except.ok "SELECT COUNT(*) FROM Artist;" }

/-- A second, separately constructed collaborator record with the same
observable behaviour as `okEnv` (a second invocation of the turn against
the unchanged database and the same deterministic stub). -/
def okEnvCopy : Collab :=
  { get_table_info := Except.ok "CREATE TABLE Artist (ArtistId INT, Name TEXT)"
    run := fun _ => Except.ok "[(275,)]"
    complete := fun _ => Except.ok "SELECT COUNT(*) FROM Artist;" }

/-- A stub whose generation step emits a destructive statement. -/
def dropEnv : Collab :=
  { get_table_info := Except.ok "CREATE TABLE Artist (ArtistId INT, Name TEXT)"
    run := fun _ => Except.ok ""
    complete := fun _ => Except.ok "DROP TABLE Artist;" }

/-- A driver stub whose connection attempt fails. -/
def failDriver : String → Except String Collab :=
  fun _ => Except.error "2003: Cannot connect to MySQL server"

/-! ## Claims -/

/-- C1: every exception raised during the generation–execution–synthesis
pipeline (connection error, query-execution error, or completion-service
failure) surfaces as the `Except.error` branch of `chain_invoke`, which
`get_response` — a total function, so nothing propagates past the turn
boundary — converts to the single marker-prefixed error message; the
trace is exactly the calls made up to the failure, so the turn is not
retried. -/
theorem C1_turn_errors_caught (env : Collab) (q : String) (hist : List LCMessage)
    (e : String) (tr : List Event)
    (h : chain_invoke env q (strHistory hist) = (Except.error e, tr)) :
    get_response env q hist = (errorMarker ++ e, tr) := by
  simp [get_response, h]

/-- C1 witness: a stub completion service that times out — the caller
receives the single error-prefixed message, and the trace stops at the
failed generation call. -/
theorem C1_witness :
    chain_invoke timeoutEnv "How many artists are there?" (strHistory []) =
      (Except.error "Request timed out",
        [Event.schemaFetch,
          Event.llmCall (renderSqlGenerationPrompt
            "CREATE TABLE Artist (ArtistId INT, Name TEXT)" (strHistory [])
            "How many artists are there?")]) ∧
    get_response timeoutEnv "How many artists are there?" [] =
      (errorMarker ++ "Request timed out",
        [Event.schemaFetch,
          Event.llmCall (renderSqlGenerationPrompt
            "CREATE TABLE Artist (ArtistId INT, Name TEXT)" (strHistory [])
            "How many artists are there?")]) :=
  ⟨rfl, C1_turn_errors_caught timeoutEnv "How many artists are there?" [] _ _ rfl⟩

/-- C2: if executing the generated query fails, the synthesis LLM call is
never made (the whole turn contains exactly the one generation
completion call) and the caller receives the raw execution error text
after the fixed marker, in place of a natural-language answer. -/
theorem C2_no_synthesis_after_failed_run (env : Collab) (q : String)
    (hist : List LCMessage) (query e : String) (tr : List Event)
    (hsql : get_sql_chain_invoke env q (strHistory hist) = (Except.ok query, tr))
    (hrun : env.run query = Except.error e) :
    get_response env q hist =
      (errorMarker ++ e, tr ++ [Event.schemaFetch, Event.dbRun query]) ∧
    llmCount (get_response env q hist).2 = 1 := by
  have hchain := chain_run_error env q (strHistory hist) query e tr hsql hrun
  obtain ⟨schema, hg, hc, htr⟩ := sql_ok_shape env q (strHistory hist) query tr hsql
  refine ⟨by simp [get_response, hchain], ?_⟩
  rw [show (get_response env q hist).2 = tr ++ [Event.schemaFetch, Event.dbRun query] by
    simp [get_response, hchain]]
  subst htr
  simp [isLlmCall]

/-- C2 witness: a stub whose malformed generated SQL is rejected by the
database — no synthesis call, raw error surfaced. -/
theorem C2_witness :
    get_sql_chain_invoke runFailEnv "How many artists are there?" (strHistory []) =
      (Except.ok "SELEC COUNT(*) FROM Artist;",
        [Event.schemaFetch,
          Event.llmCall (renderSqlGenerationPrompt
            "CREATE TABLE Artist (ArtistId INT, Name TEXT)" (strHistory [])
            "How many artists are there?")]) ∧
    runFailEnv.run "SELEC COUNT(*) FROM Artist;" = Except.error "1064: SQL syntax error" ∧
    (get_response runFailEnv "How many artists are there?" [] =
      (errorMarker ++ "1064: SQL syntax error",
        [Event.schemaFetch,
          Event.llmCall (renderSqlGenerationPrompt
            "CREATE TABLE Artist (ArtistId INT, Name TEXT)" (strHistory [])
            "How many artists are there?")] ++
          [Event.schemaFetch, Event.dbRun "SELEC COUNT(*) FROM Artist;"]) ∧
      llmCount (get_response runFailEnv "How many artists are there?" []).2 = 1) :=
  ⟨rfl, rfl,
    C2_no_synthesis_after_failed_run runFailEnv "How many artists are there?" []
      "SELEC COUNT(*) FROM Artist;" "1064: SQL syntax error" _ rfl rfl⟩

/-- C3 counterexample: the chain applies no trimming at all — with a
deterministic stub whose completion text is wrapped in backticks, the
GeneratedQuery returned by the SQL chain is the wrapped text itself, so
the wrapping is NOT trimmed off as the claim states. -/
theorem C3_counterexample :
    (get_sql_chain_invoke backtickEnv "How many artists are there?" (strHistory [])).1 =
      Except.ok "```sql\nSELECT COUNT(*) FROM Artist;\n```" ∧
    beginsWithBacktickFence "```sql\nSELECT COUNT(*) FROM Artist;\n```" = true ∧
    "```sql\nSELECT COUNT(*) FROM Artist;\n```" ≠ "SELECT COUNT(*) FROM Artist;" :=
  ⟨rfl, by decide, by decide⟩

/-- C3 (amended): for every deterministic stub completion service that
returns text T for the generation prompt, the SQL generation chain
returns exactly T unchanged — StrOutputParser applies no trimming, so
whatever wrapping T carries (backticks included) remains in the
GeneratedQuery handed to execution. -/
theorem C3_amended_raw_completion (env : Collab) (q ch schema T : String)
    (hg : env.get_table_info = Except.ok schema)
    (hc : env.complete (renderSqlGenerationPrompt schema ch q) = Except.ok T) :
    (get_sql_chain_invoke env q ch).1 = Except.ok T := by
  unfold get_sql_chain_invoke
  rw [hg]
  simp [hc]

/-- C3 witness: a clean stub completion is returned exactly as stubbed. -/
theorem C3_amended_witness :
    okEnv.get_table_info = Except.ok "CREATE TABLE Artist (ArtistId INT, Name TEXT)" ∧
    okEnv.complete (renderSqlGenerationPrompt
      "CREATE TABLE Artist (ArtistId INT, Name TEXT)" (strHistory [])
      "How many artists are there?") = Except.ok "SELECT COUNT(*) FROM Artist;" ∧
    (get_sql_chain_invoke okEnv "How many artists are there?" (strHistory [])).1 =
      Except.ok "SELECT COUNT(*) FROM Artist;" :=
  ⟨rfl, rfl,
    C3_amended_raw_completion okEnv "How many artists are there?" (strHistory [])
      "CREATE TABLE Artist (ArtistId INT, Name TEXT)" "SELECT COUNT(*) FROM Artist;" rfl rfl⟩

/-- C4 counterexample: a fully successful turn makes THREE database round
trips, not two — the schema is fetched twice (once inside the SQL chain
and once by the outer assign) in addition to the single query
execution. -/
theorem C4_counterexample :
    (chain_invoke okEnv "How many artists are there?" (strHistory [])).1 =
      Except.ok "SELECT COUNT(*) FROM Artist;" ∧
    schemaCount (chain_invoke okEnv "How many artists are there?" (strHistory [])).2 = 2 ∧
    runCount (chain_invoke okEnv "How many artists are there?" (strHistory [])).2 = 1 ∧
    dbCount (chain_invoke okEnv "How many artists are there?" (strHistory [])).2 = 3 ∧
    dbCount (chain_invoke okEnv "How many artists are there?" (strHistory [])).2 ≠ 2 := by
  refine ⟨rfl, ?_, ?_, ?_, ?_⟩ <;>
    simp [chain_invoke, get_sql_chain_invoke, okEnv, dbCount, isLlmCall, isDbRun, isSchemaFetch]

/-- C4 (amended): every successful turn performs exactly three database
round trips — two schema fetches and one query execution — and exactly
two language-model completion calls. -/
theorem C4_amended_call_counts (env : Collab) (q ch r : String)
    (h : (chain_invoke env q ch).1 = Except.ok r) :
    schemaCount (chain_invoke env q ch).2 = 2 ∧
    runCount (chain_invoke env q ch).2 = 1 ∧
    dbCount (chain_invoke env q ch).2 = 3 ∧
    llmCount (chain_invoke env q ch).2 = 2 := by
  have h2 : chain_invoke env q ch = (Except.ok r, (chain_invoke env q ch).2) := by
    rw [← h]
  obtain ⟨schema, query, resp, hg, hc, hrun, hc2, htr⟩ :=
    chain_ok_shape env q ch r _ h2
  rw [htr]
  simp [dbCount, isLlmCall, isDbRun, isSchemaFetch]

/-- C4 witness: the counts at a concrete successful turn. -/
theorem C4_amended_witness :
    (chain_invoke okEnv "List 3 artists" (strHistory [])).1 =
      Except.ok "SELECT COUNT(*) FROM Artist;" ∧
    (schemaCount (chain_invoke okEnv "List 3 artists" (strHistory [])).2 = 2 ∧
     runCount (chain_invoke okEnv "List 3 artists" (strHistory [])).2 = 1 ∧
     dbCount (chain_invoke okEnv "List 3 artists" (strHistory [])).2 = 3 ∧
     llmCount (chain_invoke okEnv "List 3 artists" (strHistory [])).2 = 2) :=
  ⟨rfl, C4_amended_call_counts okEnv "List 3 artists" (strHistory [])
    "SELECT COUNT(*) FROM Artist;" rfl⟩

/-- C5: on every successful turn the external calls happen exactly in the
stated order — schema fetch, then the SQL-generation LLM call on the
prompt built from that schema, then (after the second schema fetch) the
execution of the generated query, then the synthesis LLM call on the
prompt built from query and result — and the synthesis completion is
exactly what `get_response` returns to the caller. -/
theorem C5_pipeline_order (env : Collab) (q : String) (hist : List LCMessage) (r : String)
    (h : (chain_invoke env q (strHistory hist)).1 = Except.ok r) :
    ∃ schema query resp,
      env.get_table_info = Except.ok schema ∧
      env.complete (renderSqlGenerationPrompt schema (strHistory hist) q) = Except.ok query ∧
      env.run query = Except.ok resp ∧
      env.complete (renderNlResponsePrompt schema (strHistory hist) query q resp) =
        Except.ok r ∧
      (chain_invoke env q (strHistory hist)).2 =
        [Event.schemaFetch,
         Event.llmCall (renderSqlGenerationPrompt schema (strHistory hist) q),
         Event.schemaFetch, Event.dbRun query,
         Event.llmCall (renderNlResponsePrompt schema (strHistory hist) query q resp)] ∧
      get_response env q hist = (r, (chain_invoke env q (strHistory hist)).2) := by
  rcases hch : chain_invoke env q (strHistory hist) with ⟨res, tr⟩
  rw [hch] at h
  obtain rfl : res = Except.ok r := h
  obtain ⟨schema, query, resp, hg, hc, hrun, hc2, htr⟩ :=
    chain_ok_shape env q (strHistory hist) r tr hch
  refine ⟨schema, query, resp, hg, hc, hrun, hc2, ?_, ?_⟩
  · exact htr
  · simp [get_response, hch]

/-- C5 witness: the full ordered trace of a concrete successful turn. -/
theorem C5_witness :
    (chain_invoke okEnv "How many artists are there?" (strHistory [])).1 =
      Except.ok "SELECT COUNT(*) FROM Artist;" ∧
    (∃ schema query resp,
      okEnv.get_table_info = Except.ok schema ∧
      okEnv.complete (renderSqlGenerationPrompt schema (strHistory [])
        "How many artists are there?") = Except.ok query ∧
      okEnv.run query = Except.ok resp ∧
      okEnv.complete (renderNlResponsePrompt schema (strHistory []) query
        "How many artists are there?" resp) = Except.ok "SELECT COUNT(*) FROM Artist;" ∧
      (chain_invoke okEnv "How many artists are there?" (strHistory [])).2 =
        [Event.schemaFetch,
         Event.llmCall (renderSqlGenerationPrompt schema (strHistory [])
           "How many artists are there?"),
         Event.schemaFetch, Event.dbRun query,
         Event.llmCall (renderNlResponsePrompt schema (strHistory []) query
           "How many artists are there?" resp)] ∧
      get_response okEnv "How many artists are there?" [] =
        ("SELECT COUNT(*) FROM Artist;",
          (chain_invoke okEnv "How many artists are there?" (strHistory [])).2)) :=
  ⟨rfl, C5_pipeline_order okEnv "How many artists are there?" []
    "SELECT COUNT(*) FROM Artist;" rfl⟩

/-- C6: there is no retry or correction loop — on every turn, successful
or not, at most one query execution and at most two language-model calls
happen (one generation, one synthesis), so invalid generated SQL never
triggers a second generation or execution attempt within the turn; with
C5, the single response is derived from the turn's single GeneratedQuery
and its single ExecutionResult. -/
theorem C6_no_retry_loop (env : Collab) (q : String) (hist : List LCMessage) :
    runCount (get_response env q hist).2 ≤ 1 ∧
    llmCount (get_response env q hist).2 ≤ 2 := by
  obtain ⟨h1, h2, h3⟩ := chain_trace_bounds env q (strHistory hist)
  unfold get_response
  split
  next r tr hch => rw [hch] at h1 h2; exact ⟨h1, h2⟩
  next e tr hch => rw [hch] at h1 h2; exact ⟨h1, h2⟩

/-- C7: the turn is a deterministic function of the question, the
history, and the observable behaviour of the collaborators — two
invocations against stubs with pointwise-equal schema text, execution
results and completions produce an identical GeneratedQuery and an
identical final answer (and trace). -/
theorem C7_deterministic_turn (env1 env2 : Collab) (q : String) (hist : List LCMessage)
    (hs : env1.get_table_info = env2.get_table_info)
    (hr : ∀ s, env1.run s = env2.run s)
    (hc : ∀ p, env1.complete p = env2.complete p) :
    get_sql_chain_invoke env1 q (strHistory hist) =
      get_sql_chain_invoke env2 q (strHistory hist) ∧
    get_response env1 q hist = get_response env2 q hist := by
  obtain rfl : env1 = env2 := by
    cases env1 with
    | mk g1 r1 c1 =>
      cases env2 with
      | mk g2 r2 c2 =>
        have hg : g1 = g2 := hs
        have hrr : r1 = r2 := funext hr
        have hcc : c1 = c2 := funext hc
        rw [hg, hrr, hcc]
  exact ⟨rfl, rfl⟩

/-- C7 witness: two separately built but observably equal stubs yield
identical results. -/
theorem C7_witness :
    okEnv.get_table_info = okEnvCopy.get_table_info ∧
    (get_sql_chain_invoke okEnv "How many artists are there?" (strHistory []) =
       get_sql_chain_invoke okEnvCopy "How many artists are there?" (strHistory []) ∧
     get_response okEnv "How many artists are there?" [] =
       get_response okEnvCopy "How many artists are there?" []) :=
  ⟨rfl, C7_deterministic_turn okEnv okEnvCopy "How many artists are there?" []
    rfl (fun _ => rfl) (fun _ => rfl)⟩

/-- C8: the generated query string is handed to the connection's `run`
unmodified — the turn's execution event carries exactly the generated
string, and every execution event of the turn carries that string (no
sanitization, filtering or rewriting between generation and
execution). -/
theorem C8_query_executed_unmodified (env : Collab) (q ch query : String)
    (tr : List Event)
    (hsql : get_sql_chain_invoke env q ch = (Except.ok query, tr)) :
    Event.dbRun query ∈ (chain_invoke env q ch).2 ∧
    ∀ s, Event.dbRun s ∈ (chain_invoke env q ch).2 → s = query := by
  obtain ⟨schema, hg, hc, htr⟩ := sql_ok_shape env q ch query tr hsql
  subst htr
  cases hrun : env.run query with
  | error e =>
      have hch := chain_run_error env q ch query e _ hsql hrun
      rw [hch]
      refine ⟨by simp, ?_⟩
      intro s hs
      simpa using hs
  | ok resp =>
      cases hc2 : env.complete (renderNlResponsePrompt schema ch query q resp) with
      | error e =>
          have hch : chain_invoke env q ch =
              (Except.error e,
                [Event.schemaFetch, Event.llmCall (renderSqlGenerationPrompt schema ch q)] ++
                  [Event.schemaFetch, Event.dbRun query,
                    Event.llmCall (renderNlResponsePrompt schema ch query q resp)]) := by
            unfold chain_invoke
            rw [hsql]
            simp [hg, hrun, hc2]
          rw [hch]
          refine ⟨by simp, ?_⟩
          intro s hs
          simpa using hs
      | ok result =>
          have hch : chain_invoke env q ch =
              (Except.ok result,
                [Event.schemaFetch, Event.llmCall (renderSqlGenerationPrompt schema ch q)] ++
                  [Event.schemaFetch, Event.dbRun query,
                    Event.llmCall (renderNlResponsePrompt schema ch query q resp)]) := by
            unfold chain_invoke
            rw [hsql]
            simp [hg, hrun, hc2]
          rw [hch]
          refine ⟨by simp, ?_⟩
          intro s hs
          simpa using hs

/-- C8 witness: a stub-generated DROP TABLE statement is executed as-is. -/
theorem C8_witness :
    get_sql_chain_invoke dropEnv "remove the artists" (strHistory []) =
      (Except.ok "DROP TABLE Artist;",
        [Event.schemaFetch,
          Event.llmCall (renderSqlGenerationPrompt
            "CREATE TABLE Artist (ArtistId INT, Name TEXT)" (strHistory [])
            "remove the artists")]) ∧
    (Event.dbRun "DROP TABLE Artist;" ∈
        (chain_invoke dropEnv "remove the artists" (strHistory [])).2 ∧
      ∀ s, Event.dbRun s ∈ (chain_invoke dropEnv "remove the artists" (strHistory [])).2 →
        s = "DROP TABLE Artist;") :=
  ⟨rfl, C8_query_executed_unmodified dropEnv "remove the artists" (strHistory [])
    "DROP TABLE Artist;" _ rfl⟩

/-- C9: with no stored connection (`db_state` is None),
`chat_interface_predict` returns the fixed warning text and performs no
external call at all — no schema fetch, no language-model call, no query
execution (the trace is empty). -/
theorem C9_no_connection_guard (message : String)
    (history : List (Option String × Option String)) :
    chat_interface_predict message history none =
      ("⚠️ Please connect to the database first.", []) := rfl

/-- C10: when establishing the connection fails, `connect_to_db` returns
the failure text together with None as the new connection value, and the
button wiring overwrites `db_state` with that None — whatever previously
stored working connection existed is replaced, not preserved. -/
theorem C10_failed_connect_clears_state
    (driver : String → Except String Collab)
    (host port user password database e : String)
    (h : driver (db_uri user password host port database) = Except.error e) :
    connect_to_db driver host port user password database =
      ("❌ Failed to connect: " ++ e, none) ∧
    ∀ prev : Option Collab,
      db_state_update prev (connect_to_db driver host port user password database) =
        none := by
  have hc : connect_to_db driver host port user password database =
      ("❌ Failed to connect: " ++ e, none) := by
    unfold connect_to_db init_database
    rw [h]
  exact ⟨hc, fun prev => by simp [db_state_update, hc]⟩

/-- C10 witness: a failing driver at the UI's default connection
parameters. -/
theorem C10_witness :
    failDriver (db_uri "root" "admin" "localhost" "3306" "Chinook") =
      Except.error "2003: Cannot connect to MySQL server" ∧
    (connect_to_db failDriver "localhost" "3306" "root" "admin" "Chinook" =
      ("❌ Failed to connect: " ++ "2003: Cannot connect to MySQL server", none) ∧
     ∀ prev : Option Collab,
       db_state_update prev
         (connect_to_db failDriver "localhost" "3306" "root" "admin" "Chinook") = none) :=
  ⟨rfl, C10_failed_connect_clears_state failDriver "localhost" "3306" "root" "admin"
    "Chinook" "2003: Cannot connect to MySQL server" rfl⟩

end MySQLChatbot
